import Mathlib

/-!
Verification of the session/container lifecycle manager of the mcontainer
package (config.py, mcp.py, container.py) against its specification.

The Python sources are shallowly embedded: Python dicts become association
lists with in-place update semantics, the Docker runtime and the host
filesystem become explicit oracle parameters, and every fallible runtime
call is represented by a Boolean outcome supplied by the oracle.  The
pydantic `ValidationError` that the required `model: str` field of
`Session` (models.py) raises on the `None` container.py passes is embedded
explicitly: functions it escapes return a `PyResult`, and `create_session`
records it in the `raised` field of its outcome.  The session store
(session.py, class SessionManager) is not part of the source tree; it is
modelled from the specification as a keyed store.
-/

namespace MC

/-! ## Python dict helpers

A Python dict is embedded as an association list that preserves insertion
order; assignment to an existing key updates in place, assignment to a new
key appends. -/

/-- Assignment `d[k] = v` with Python dict semantics: the first entry with
the key is updated in place, a fresh key is appended at the end. -/
def pyDictSet : List (String × α) → String → α → List (String × α)
  | [], k, v => [(k, v)]
  | p :: rest, k, v => if p.1 == k then (k, v) :: rest else p :: pyDictSet rest k v

/-- Lookup `d.get(k)` returning the value at the first matching key. -/
def pyDictGet (d : List (String × α)) (k : String) : Option α :=
  (d.find? (fun p => p.1 == k)).map (fun p => p.2)

/-- Membership test `k in d`. -/
def pyDictHas (d : List (String × α)) (k : String) : Bool :=
  d.any (fun p => p.1 == k)

/-- Merge `d2` into `d1` in the manner of a double-splat merge, with values of
`d2` winning on key collision. -/
def pyDictMerge (d1 d2 : List (String × α)) : List (String × α) :=
  d2.foldl (fun acc kv => pyDictSet acc kv.1 kv.2) d1

/-- Environment-variable map of a session, a Python dict of strings. -/
abbrev Env := List (String × String)

/-- Rendering of `json.dumps` for a list of strings. -/
def jsonArr (xs : List String) : String :=
  "[" ++ String.intercalate ", " (xs.map (fun s => "\"" ++ s ++ "\"")) ++ "]"

/-- Rendering of `json.dumps` for a string-to-string dict. -/
def jsonObj (kvs : List (String × String)) : String :=
  "\x7b" ++
    String.intercalate ", " (kvs.map (fun kv => "\"" ++ kv.1 ++ "\": \"" ++ kv.2 ++ "\"")) ++
  "\x7d"

/-! ## MD5

The project configuration locator keys directories by
`hashlib.md5(project_id.encode()).hexdigest()`.  The hash is embedded
concretely so that the path law of claim C9 talks about the genuine digest.
All words are `Nat` reduced mod `2 ^ 32` at every arithmetic step. -/

/-- Left rotation of a 32-bit word. -/
def rotl32 (x c : Nat) : Nat := ((x <<< c) ||| (x >>> (32 - c))) % 4294967296

/-- Bitwise complement of a 32-bit word. -/
def not32 (x : Nat) : Nat := x ^^^ 4294967295

/-- Round constants `K[i] = floor(abs(sin(i + 1)) * 2 ^ 32)`. -/
def md5K : List Nat := [
  0xd76aa478, 0xe8c7b756, 0x242070db, 0xc1bdceee, 0xf57c0faf, 0x4787c62a, 0xa8304613, 0xfd469501,
  0x698098d8, 0x8b44f7af, 0xffff5bb1, 0x895cd7be, 0x6b901122, 0xfd987193, 0xa679438e, 0x49b40821,
  0xf61e2562, 0xc040b340, 0x265e5a51, 0xe9b6c7aa, 0xd62f105d, 0x02441453, 0xd8a1e681, 0xe7d3fbc8,
  0x21e1cde6, 0xc33707d6, 0xf4d50d87, 0x455a14ed, 0xa9e3e905, 0xfcefa3f8, 0x676f02d9, 0x8d2a4c8a,
  0xfffa3942, 0x8771f681, 0x6d9d6122, 0xfde5380c, 0xa4beea44, 0x4bdecfa9, 0xf6bb4b60, 0xbebfbc70,
  0x289b7ec6, 0xeaa127fa, 0xd4ef3085, 0x04881d05, 0xd9d4d039, 0xe6db99e5, 0x1fa27cf8, 0xc4ac5665,
  0xf4292244, 0x432aff97, 0xab9423a7, 0xfc93a039, 0x655b59c3, 0x8f0ccc92, 0xffeff47d, 0x85845dd1,
  0x6fa87e4f, 0xfe2ce6e0, 0xa3014314, 0x4e0811a1, 0xf7537e82, 0xbd3af235, 0x2ad7d2bb, 0xeb86d391]

/-- Per-round left-rotation amounts. -/
def md5S : List Nat := [
  7, 12, 17, 22, 7, 12, 17, 22, 7, 12, 17, 22, 7, 12, 17, 22,
  5, 9, 14, 20, 5, 9, 14, 20, 5, 9, 14, 20, 5, 9, 14, 20,
  4, 11, 16, 23, 4, 11, 16, 23, 4, 11, 16, 23, 4, 11, 16, 23,
  6, 10, 15, 21, 6, 10, 15, 21, 6, 10, 15, 21, 6, 10, 15, 21]

/-- UTF-8 encoding of one character, as `str.encode()` produces it. -/
def utf8BytesOfChar (ch : Char) : List Nat :=
  let c := ch.toNat
  if c < 0x80 then [c]
  else if c < 0x800 then [0xC0 ||| (c >>> 6), 0x80 ||| (c &&& 0x3F)]
  else if c < 0x10000 then
    [0xE0 ||| (c >>> 12), 0x80 ||| ((c >>> 6) &&& 0x3F), 0x80 ||| (c &&& 0x3F)]
  else
    [0xF0 ||| (c >>> 18), 0x80 ||| ((c >>> 12) &&& 0x3F), 0x80 ||| ((c >>> 6) &&& 0x3F),
     0x80 ||| (c &&& 0x3F)]

/-- UTF-8 bytes of a string. -/
def strBytes (s : String) : List Nat := (s.data.map utf8BytesOfChar).flatten

/-- Little-endian byte decomposition, `k` bytes of `n`. -/
def leBytes : Nat → Nat → List Nat
  | 0, _ => []
  | k + 1, n => n % 256 :: leBytes k (n / 256)

/-- MD5 padding: a `0x80` byte, zeros to 56 mod 64, then the bit length as
eight little-endian bytes. -/
def md5Pad (msg : List Nat) : List Nat :=
  let bitLen := (8 * msg.length) % 2 ^ 64
  let zeros := (56 + 64 - (msg.length + 1) % 64) % 64
  msg ++ [0x80] ++ List.replicate zeros 0 ++ leBytes 8 bitLen

/-- Splitting into 64-byte blocks, driven by a block count. -/
def chunksGo : Nat → List Nat → List (List Nat)
  | 0, _ => []
  | k + 1, l => l.take 64 :: chunksGo k (l.drop 64)

/-- Little-endian 32-bit word `g` of a block. -/
def md5Word (block : List Nat) (g : Nat) : Nat :=
  block.getD (4 * g) 0 + 256 * block.getD (4 * g + 1) 0 +
    65536 * block.getD (4 * g + 2) 0 + 16777216 * block.getD (4 * g + 3) 0

/-- Round mixing function, by round quarter. -/
def md5F (i b c d : Nat) : Nat :=
  if i < 16 then (b &&& c) ||| (not32 b &&& d)
  else if i < 32 then (d &&& b) ||| (not32 d &&& c)
  else if i < 48 then b ^^^ c ^^^ d
  else c ^^^ (b ||| not32 d)

/-- Message-word index schedule, by round quarter. -/
def md5G (i : Nat) : Nat :=
  if i < 16 then i
  else if i < 32 then (5 * i + 1) % 16
  else if i < 48 then (3 * i + 5) % 16
  else (7 * i) % 16

/-- Compression of one 64-byte block into the running state. -/
def md5Chunk (st : Nat × Nat × Nat × Nat) (block : List Nat) : Nat × Nat × Nat × Nat :=
  let r := (List.range 64).foldl
    (fun (s : Nat × Nat × Nat × Nat) i =>
      let (a, b, c, d) := s
      let f := (md5F i b c d + a + md5K.getD i 0 + md5Word block (md5G i)) % 4294967296
      (d, (b + rotl32 f (md5S.getD i 0)) % 4294967296, b, c))
    st
  ((st.1 + r.1) % 4294967296, (st.2.1 + r.2.1) % 4294967296,
   (st.2.2.1 + r.2.2.1) % 4294967296, (st.2.2.2 + r.2.2.2) % 4294967296)

/-- Hexadecimal digit character, lowercase. -/
def hexDigitChar (n : Nat) : Char := if n < 10 then Char.ofNat (48 + n) else Char.ofNat (87 + n)

/-- Two-digit hexadecimal rendering of a byte. -/
def byteHex (b : Nat) : List Char := [hexDigitChar (b / 16), hexDigitChar (b % 16)]

/-- Hex digest of the MD5 hash of a string, as
`hashlib.md5(s.encode()).hexdigest()` returns it. -/
def md5Hex (s : String) : String :=
  let padded := md5Pad (strBytes s)
  let blocks := chunksGo (padded.length / 64) padded
  let st := blocks.foldl md5Chunk (0x67452301, 0xefcdab89, 0x98badcfe, 0x10325476)
  String.mk (((leBytes 4 st.1 ++ leBytes 4 st.2.1 ++ leBytes 4 st.2.2.1 ++
    leBytes 4 st.2.2.2).map byteHex).flatten)

/-! ## Driver Registry (config.py)

`ConfigManager` merges the hard-coded `DEFAULT_DRIVERS` with drivers loaded
from the bundled driver directory (`BUILTIN_DRIVERS_DIR`, part of the
package checkout).  The user driver directory (`~/.config/mc/drivers`) is
created but never scanned when building the driver table; it is consulted
only by `get_driver_path`. -/

/-- Persistent configuration declaration of a driver (models.py); `type` is
`directory` or `file`. -/
structure PersistentConfig where
  source : String
  target : String
  type : String
  description : String := ""
deriving DecidableEq, Repr

/-- Driver record of models.py, restricted to the fields config.py and
container.py read and write. -/
structure Driver where
  name : String
  description : String := ""
  version : String := ""
  maintainer : String := ""
  image : String
  ports : List Nat := []
  persistent_configs : List PersistentConfig := []
deriving DecidableEq, Repr

/-- Contents of a `mai-driver.yaml` manifest file as loaded by yaml:
every required field is optional at this stage, mirroring a plain dict. -/
structure DriverManifest where
  name : Option String := none
  description : Option String := none
  version : Option String := none
  maintainer : Option String := none
  ports : List Nat := []
deriving DecidableEq, Repr

/-- Hard-coded default driver `goose` of config.py. -/
def gooseDriver : Driver :=
  { name := "goose", description := "Goose with MCP servers", version := "1.0.0",
    maintainer := "team@monadical.com", image := "monadical/mc-goose:latest",
    ports := [8000, 22] }

/-- Hard-coded default driver `aider` of config.py. -/
def aiderDriver : Driver :=
  { name := "aider", description := "Aider coding assistant", version := "1.0.0",
    maintainer := "team@monadical.com", image := "monadical/mc-aider:latest",
    ports := [22] }

/-- Hard-coded default driver `claude-code` of config.py. -/
def claudeCodeDriver : Driver :=
  { name := "claude-code", description := "Claude Code environment", version := "1.0.0",
    maintainer := "team@monadical.com", image := "monadical/mc-claude-code:latest",
    ports := [22] }

/-- Hard-coded `DEFAULT_DRIVERS` table of config.py. -/
def DEFAULT_DRIVERS : List (String × Driver) :=
  [("goose", gooseDriver), ("aider", aiderDriver), ("claude-code", claudeCodeDriver)]

/-- Embedding of `ConfigManager.load_driver_from_dir`: `none` stands for a
directory with no manifest file; a manifest missing one of the four
required fields is rejected; the image is always the conventional
`monadical/mc-<name>:latest`. -/
def load_driver_from_dir (dir : Option DriverManifest) : Option Driver :=
  match dir with
  | none => none
  | some d =>
    match d.name, d.description, d.version, d.maintainer with
    | some n, some de, some v, some mt =>
      some { name := n, description := de, version := v, maintainer := mt,
             image := "monadical/mc-" ++ n ++ ":latest", ports := d.ports }
    | _, _, _, _ => none

/-- Embedding of `ConfigManager.load_builtin_drivers`: every subdirectory of
the bundled drivers directory contributes its loaded driver keyed by the
name declared in the manifest; a failing load is skipped. -/
def load_builtin_drivers (dirs : List (Option DriverManifest)) : List (String × Driver) :=
  dirs.foldl
    (fun acc dir =>
      match load_driver_from_dir dir with
      | some drv => pyDictSet acc drv.name drv
      | none => acc)
    []

/-- Driver table of `ConfigManager._create_default_config`: the double-splat
merge of `DEFAULT_DRIVERS` with the bundled directory drivers, directory
values winning on collision.  The user driver directory takes no part. -/
def createDefaultConfigDrivers (builtinDirs : List (Option DriverManifest)) :
    List (String × Driver) :=
  pyDictMerge DEFAULT_DRIVERS (load_builtin_drivers builtinDirs)

/-- Configuration state of a freshly initialised `ConfigManager` (no config
file on disk).  `userDirs` records the contents of the user driver
directory; `_create_default_config` ignores it entirely. -/
structure ConfigState where
  drivers : List (String × Driver)
  userDirs : List (String × Option DriverManifest)
deriving Repr

/-- Embedding of `ConfigManager.__init__` on a machine with no existing
config file: `_load_or_create_config` falls through to
`_create_default_config`. -/
def configManagerInit (builtinDirs : List (Option DriverManifest))
    (userDirs : List (String × Option DriverManifest)) : ConfigState :=
  { drivers := createDefaultConfigDrivers builtinDirs, userDirs }

/-- Embedding of `ConfigManager.get_driver`. -/
def get_driver (cfg : ConfigState) (name : String) : Option Driver :=
  pyDictGet cfg.drivers name

/-- Embedding of `ConfigManager.list_drivers`. -/
def list_drivers (cfg : ConfigState) : List (String × Driver) :=
  cfg.drivers

/-- Embedding of `ConfigManager.get_driver_path`: the bundled directory is
checked first, the user directory second. -/
def get_driver_path (projectRoot home : String) (builtinDirNames : List String)
    (cfg : ConfigState) (driver_name : String) : Option String :=
  if builtinDirNames.contains driver_name then
    some (projectRoot ++ "/drivers/" ++ driver_name)
  else if (cfg.userDirs.find? (fun p => p.1 == driver_name)).isSome then
    some (home ++ "/.config/mc/drivers/" ++ driver_name)
  else
    none

/-! ## MCP Sidecar Manager (mcp.py)

MCP configurations are stored as a list of dicts under the single user
configuration key `mcps`.  The dict of one MCP is embedded as a structure
whose optional fields stand for possibly absent keys; `proxy_options` is
flattened to its one consumed key `sse_port` (with defaults resolved at
use sites, as in the source). -/

/-- Stored MCP configuration dict. -/
structure MCPDict where
  name : String
  type : String
  url : Option String := none
  headers : List (String × String) := []
  image : Option String := none
  command : Option String := none
  env : List (String × String) := []
  base_image : Option String := none
  proxy_image : Option String := none
  sse_port : Option Nat := none
  host_port : Option Nat := none
deriving DecidableEq, Repr

/-- Embedding of `MCPManager.get_mcp`: first configuration whose `name` key
matches. -/
def get_mcp (mcps : List MCPDict) (name : String) : Option MCPDict :=
  mcps.find? (fun m => m.name == name)

/-- One step of the port scan of `MCPManager.add_proxy_mcp`: a proxy-type
entry with a truthy `host_port` key raises the running maximum. -/
def proxyPortStep (h : Nat) (m : MCPDict) : Nat :=
  if m.type == "proxy" then
    match m.host_port with
    | some p => if p != 0 && p > h then p else h
    | none => h
  else h

/-- Port scan of `MCPManager.add_proxy_mcp` when no host port is given:
`highest` starts at 5100 and is raised by every proxy-type entry with a
truthy `host_port` key exceeding it; the assigned port is `highest + 1`. -/
def autoProxyHostPort (mcps : List MCPDict) : Nat :=
  mcps.foldl proxyPortStep 5100 + 1

/-- Embedding of `MCPManager.add_proxy_mcp`: resolves the host port
(auto-assigning when `none`), then replaces any entry of the same name and
appends the new configuration.  Returns the stored configuration and the
updated list. -/
def add_proxy_mcp (mcps : List MCPDict) (name base_image proxy_image command : String)
    (sse_port : Option Nat) (env : List (String × String)) (host_port : Option Nat) :
    MCPDict × List MCPDict :=
  let hp : Nat :=
    match host_port with
    | some p => p
    | none => autoProxyHostPort mcps
  let proxy_mcp : MCPDict :=
    { name, type := "proxy", base_image := some base_image, proxy_image := some proxy_image,
      command := some command, sse_port, env, host_port := some hp }
  (proxy_mcp, mcps.filter (fun m => m.name != name) ++ [proxy_mcp])

/-- Embedding of `MCPManager.remove_mcp`.  The result is the returned
Boolean, the stored configuration list after the call, and whether
`stop_mcp` was invoked.  On a missing name the filtered list has the same
length, so the function returns `false` before saving and before any
container interaction. -/
def remove_mcp (mcps : List MCPDict) (name : String) : Bool × List MCPDict × Bool :=
  let updated := mcps.filter (fun m => m.name != name)
  if mcps.length == updated.length then
    (false, mcps, false)
  else
    (true, updated, true)

/-- Runtime view of one Docker container as `MCPManager.start_mcp` inspects
it: identity, status string, and the `HostConfig.PortBindings` map from a
port key such as `8080/tcp` to the bound host ports. -/
structure ContainerInfo where
  cid : String
  status : String
  portBindings : List (String × List Nat) := []
deriving DecidableEq, Repr

/-- Result value of `MCPManager.start_mcp` on its non-raising paths. -/
inductive StartMcpRes where
  | notApplicable (name : String)
  | running (container_id name : String)
deriving DecidableEq, Repr

/-- Return behaviour of one `start_mcp` call: a normal return or a raised
exception with its message. -/
inductive StartMcpReturn where
  | raised (msg : String)
  | ok (r : StartMcpRes)
deriving DecidableEq, Repr

/-- Container-level effects performed by one `start_mcp` call. -/
structure StartMcpEffects where
  started : List String := []
  removed : List String := []
  created : List String := []
deriving DecidableEq, Repr

/-- Embedding of `MCPManager.get_mcp_container_name`. -/
def get_mcp_container_name (mcp_name : String) : String := "mc_mcp_" ++ mcp_name

/-- Type dispatch of `start_mcp` once no reusable container remains: remote
returns the not-applicable sentinel with no container lifecycle; docker and
proxy create and start a detached container (for proxy, after building the
custom proxy image) and join the shared MCP network; any other type raises
`ValueError`. -/
def startMcpCreateBranch (cfg : MCPDict) (cname newId name : String)
    (eff : StartMcpEffects) : StartMcpReturn × StartMcpEffects :=
  if cfg.type == "remote" then
    (.ok (.notApplicable name), eff)
  else if cfg.type == "docker" then
    (.ok (.running newId name), { eff with created := eff.created ++ [cname] })
  else if cfg.type == "proxy" then
    (.ok (.running newId name), { eff with created := eff.created ++ [cname] })
  else
    (.raised ("Unsupported MCP type: " ++ cfg.type), eff)

/-- Embedding of `MCPManager.start_mcp`.  `containers` is the runtime state
keyed by container name; `newId` is the identity Docker would give a newly
created container.  A container whose name matches is reused (and started
when not running) unless it is a proxy whose published port binding no
longer matches the configured host port, in which case it is force-removed
and recreated.  Only after the existence check does the function dispatch
on the MCP type. -/
def start_mcp (mcps : List MCPDict) (containers : List (String × ContainerInfo))
    (newId : String) (name : String) : StartMcpReturn × StartMcpEffects :=
  match get_mcp mcps name with
  | none => (.raised ("MCP server " ++ name ++ " not found"), {})
  | some cfg =>
    let cname := get_mcp_container_name name
    match pyDictGet containers cname with
    | some c =>
      let ssePortKey := toString (cfg.sse_port.getD 8080) ++ "/tcp"
      let currentBinding := (pyDictGet c.portBindings ssePortKey).getD []
      let needs_recreate :=
        cfg.type == "proxy" && cfg.host_port.getD 0 != 0 &&
          (currentBinding.isEmpty || currentBinding.headD 0 != cfg.host_port.getD 0)
      if !needs_recreate then
        if c.status != "running" then
          (.ok (.running c.cid name), { started := [cname] })
        else
          (.ok (.running c.cid name), {})
      else
        startMcpCreateBranch cfg cname newId name { removed := [cname] }
    | none =>
      startMcpCreateBranch cfg cname newId name {}

/-! ## Session Lifecycle Manager (container.py) -/

/-- Status enum of models.py. -/
inductive SessionStatus where
  | creating
  | running
  | stopped
  | failed
deriving DecidableEq, Repr

/-- Return behaviour of a Python call whose exceptions escape the caller:
a normal return or a raised exception with its message.  Used for the
pydantic `ValidationError` that `Session(model=None)` raises, which is not
a `DockerException` and therefore passes the handlers of container.py. -/
inductive PyResult (α : Type) where
  | raised (msg : String)
  | ok (v : α)
deriving DecidableEq, Repr

/-- Message of the pydantic `ValidationError` raised when `Session` is
constructed with `model=None`: models.py declares `model: str` with no
default, so the field is required and `None` is rejected. -/
def validationErrorModel : String :=
  "ValidationError: Session model field required"

/-- Session record of models.py, restricted to the fields container.py
populates and the claims consult.  `model : str` is a required pydantic
field with no default; constructing a `Session` therefore needs a `String`
for it, and call sites passing a possibly absent value go through an
explicit `ValidationError` branch.  The extra keyword arguments container.py
passes (`provider`, `run_command`, `uid`, `gid`, `ssh`) match no declared
field and are ignored by pydantic. -/
structure Session where
  id : String
  name : String
  driver : String
  status : SessionStatus
  container_id : Option String := none
  environment : Env := []
  project : Option String := none
  created_at : String := ""
  ports : List (Nat × Nat) := []
  mcps : List String := []
  model : String
deriving DecidableEq, Repr

/-- Session Store.  Modelled from the spec: session.py (class
`SessionManager`) is not under src/; the spec describes it as a durable
keyed store, session id to session record, written through `add_session`
and `remove_session`. -/
abbrev SessionStore := List (String × Session)

/-- Modelled from the spec: `SessionManager.add_session` records a session
under its id. -/
def add_session (store : SessionStore) (session_id : String) (s : Session) : SessionStore :=
  pyDictSet store session_id s

/-- Modelled from the spec: `SessionManager.remove_session` deletes the
entry of the given id when present. -/
def remove_session (store : SessionStore) (session_id : String) : SessionStore :=
  store.filter (fun kv => kv.1 != session_id)

/-- Runtime view of one Docker container as `list_sessions` inspects it. -/
structure RuntimeContainer where
  cid : String
  status : String
  labels : List (String × String) := []
  created : String := ""
  published : List (Nat × Nat) := []
deriving DecidableEq, Repr

/-- One iteration of the `list_sessions` loop for one container: `none`
skips the container (no `mc.session` label filter match, or no truthy
`mc.session.id` label); otherwise the `Session(...)` construction at
container.py lines 108-118 runs, with `model=labels.get("mc.model")` —
a container without that label passes `None` for the required `model`
field and pydantic raises `ValidationError`. -/
def sessionOfContainer (c : RuntimeContainer) : Option (PyResult Session) :=
  if pyDictHas c.labels "mc.session" then
    match pyDictGet c.labels "mc.session.id" with
    | none => none
    | some sid =>
      if sid == "" then none
      else
        match pyDictGet c.labels "mc.model" with
        | none => some (.raised validationErrorModel)
        | some m =>
          some (.ok
            { id := sid,
              name := (pyDictGet c.labels "mc.session.name").getD ("mc-" ++ sid),
              driver := (pyDictGet c.labels "mc.driver").getD "unknown",
              status :=
                if c.status == "exited" then .stopped
                else if c.status == "created" then .creating
                else .running,
              container_id := some c.cid,
              created_at := c.created,
              project := pyDictGet c.labels "mc.project",
              model := m,
              ports := c.published })
  else none

/-- Embedding of `ContainerManager.list_sessions`: containers are filtered
by presence of the `mc.session` label; a container without a truthy
`mc.session.id` label is skipped; the status is derived from the container
status string; ports are the published port map.  A `ValidationError` from
the `Session` construction (missing `mc.model` label, see
`sessionOfContainer`) aborts the loop and escapes: the surrounding
`except DockerException` does not catch it.  Note `create_session` writes
no `mc.model` label, so every tool-created session container takes the
raising branch. -/
def list_sessions : List RuntimeContainer → PyResult (List Session)
  | [] => .ok []
  | c :: rest =>
    match sessionOfContainer c with
    | some (.raised e) => .raised e
    | some (.ok s) =>
      match list_sessions rest with
      | .raised e => .raised e
      | .ok l => .ok (s :: l)
    | none => list_sessions rest

/-- Embedding of `ContainerManager._get_project_config_path`: the identifier
is the given project when truthy, else the current working directory, and
the returned path is `<home>/.mc/projects/<md5 hex digest>/config`. -/
def _get_project_config_path (home cwd : String) (project : Option String) : String :=
  let project_id :=
    match project with
    | none => cwd
    | some p => if p == "" then cwd else p
  let project_hash := md5Hex project_id
  home ++ "/.mc/projects/" ++ project_hash ++ "/config"

/-- Embedding of `ContainerManager._close_single_session`: a session with no
container id yields `false`; otherwise the container is stopped and
removed and the store entry deleted; a `DockerException` from the runtime
(modelled by `stopRemoveOk`) yields `false` with the store untouched. -/
def _close_single_session (stopRemoveOk : String → Bool) (store : SessionStore)
    (s : Session) : Bool × SessionStore :=
  match s.container_id with
  | none => (false, store)
  | some cid =>
    if stopRemoveOk cid then
      (true, remove_session store s.id)
    else
      (false, store)

/-- Embedding of `ContainerManager.close_session`: the live sessions are
listed from the runtime; the first one with the requested id is closed;
when none matches, the function returns `false` with no store access.  A
`ValidationError` raised inside `list_sessions` is not a `DockerException`
and escapes the handler of `close_session`. -/
def close_session (containers : List RuntimeContainer) (stopRemoveOk : String → Bool)
    (store : SessionStore) (session_id : String) : PyResult (Bool × SessionStore) :=
  match list_sessions containers with
  | .raised e => .raised e
  | .ok sessions =>
    match sessions.find? (fun s => s.id == session_id) with
    | some s => .ok (_close_single_session stopRemoveOk store s)
    | none => .ok (false, store)

/-- Aggregate outcome of `close_all_sessions`: the returned pair, the
progress-callback invocations in submission order, the worker-pool size
(`none` when the early empty-list return skips pool construction), and the
store after all closes. -/
structure CloseAllOutcome where
  closedCount : Nat
  success : Bool
  callbackEvents : List (String × String)
  poolSize : Option Nat
  store : SessionStore
deriving DecidableEq, Repr

/-- Per-session body `close_with_progress` of `close_all_sessions`, folded
over the session list: a session without a container id returns `false`
with no callback; otherwise stop, remove and store deletion happen, and
the callback fires exactly once with `completed` or `failed`. -/
def closeAllStep (stopRemoveOk : String → Bool)
    (acc : Nat × List (String × String) × SessionStore) (s : Session) :
    Nat × List (String × String) × SessionStore :=
  match s.container_id with
  | none => acc
  | some cid =>
    if stopRemoveOk cid then
      (acc.1 + 1, acc.2.1 ++ [(s.id, "completed")], remove_session acc.2.2 s.id)
    else
      (acc.1, acc.2.1 ++ [(s.id, "failed")], acc.2.2)

/-- Embedding of `ContainerManager.close_all_sessions`.  With no live
session the function returns `(0, True)` before any pool is built;
otherwise every session is closed independently on a pool of
`min 10 n` workers and the result is the success count paired with
`count > 0`.  The thread-pool fan-out is order-independent between
sessions; the fold fixes submission order for the callback trace.  A
`ValidationError` raised inside `list_sessions` is not a `DockerException`
and escapes the handler of `close_all_sessions`. -/
def close_all_sessions (containers : List RuntimeContainer)
    (stopRemoveOk : String → Bool) (store : SessionStore) : PyResult CloseAllOutcome :=
  match list_sessions containers with
  | .raised e => .raised e
  | .ok sessions =>
    if sessions.isEmpty then
      .ok { closedCount := 0, success := true, callbackEvents := [], poolSize := none, store }
    else
      let r := sessions.foldl (closeAllStep stopRemoveOk) (0, [], store)
      .ok { closedCount := r.1, success := decide (r.1 > 0), callbackEvents := r.2.1,
            poolSize := some (min 10 sessions.length), store := r.2.2 }

/-! ### create_session

The creation algorithm is embedded as a pure function over the call
arguments, the host environment, and a runtime oracle recording the
outcome of every fallible Docker call.  The docker-py exceptions a runtime
call can raise are all `DockerException` subclasses; the single
`except DockerException` handler of `create_session` is embedded as early
returns at the corresponding call sites.  The one exception the handler
does not cover is the pydantic `ValidationError` from `Session(model=None)`
(models.py requires `model: str`): the outcome records it in `raised`,
meaning the call raises to the caller instead of returning. -/

/-- Call arguments of `ContainerManager.create_session`.  `volumes` is the
caller dict keyed by host path, valued by bind path and mode. -/
structure CreateArgs where
  driver_name : String
  project : Option String := none
  environment : Env := []
  session_name : Option String := none
  mount_local : Bool := false
  volumes : List (String × String × String) := []
  networks : Option (List String) := none
  mcp : Option (List String) := none
  run_command : Option String := none
  uid : Option Nat := none
  gid : Option Nat := none
  model : Option String := none
  provider : Option String := none
  ssh : Bool := false

/-- Host-side ambient state consumed by `create_session`: the process
environment, the working directory, the home directory, and the
`os.path.isdir` / `os.path.abspath(os.path.expanduser(.))` views of the
filesystem. -/
structure HostEnv where
  osEnviron : Env := []
  cwd : String := "/cwd"
  home : String := "/root"
  isDir : String → Bool := fun _ => false
  absPath : String → String := fun p => p

/-- Runtime oracle for one `create_session` call: Boolean outcomes of the
fallible Docker calls, the generated session id, and the container state
Docker reports back.  `mcpStartRaises` tells whether
`mcp_manager.start_mcp` raises for a given MCP name; `mcpStatusPorts`
lists the published host ports `get_mcp_status` reports. -/
structure CreateOracle where
  session_id : String := "abcd1234"
  pullRaises : Bool := false
  createRaises : Bool := false
  startRaises : Bool := false
  mcpStartRaises : String → Bool := fun _ => false
  mcpStatusPorts : String → List Nat := fun _ => []
  connectOk : String → Bool := fun _ => true
  containerId : String := "cid0"
  createdAt : String := "t0"
  published : List (Nat × Nat) := []

/-- Configuration managers a `ContainerManager` holds: the driver table,
the stored MCP configurations, the configured Docker network, and the user
defaults for model and provider. -/
structure Managers where
  drivers : List (String × Driver)
  mcps : List MCPDict := []
  defaultNetwork : String := "mc-network"
  userDefaultModel : String := ""
  userDefaultProvider : String := ""

/-- Provider API key names passed through from the host environment. -/
def apiKeys : List String := [
  "OPENAI_API_KEY", "ANTHROPIC_API_KEY", "OPENROUTER_API_KEY", "GOOGLE_API_KEY",
  "LANGFUSE_INIT_PROJECT_PUBLIC_KEY", "LANGFUSE_INIT_PROJECT_SECRET_KEY", "LANGFUSE_URL"]

/-- Environment seeding of `create_session` lines 189-210: uid and gid
defaults, the ssh flag, and host API keys copied only when the key is in
the host environment and not already set by the caller. -/
def seedEnv (args : CreateArgs) (host : HostEnv) : Env :=
  let e := args.environment
  let e := pyDictSet e "MC_USER_ID" (match args.uid with | some u => toString u | none => "1000")
  let e := pyDictSet e "MC_GROUP_ID" (match args.gid with | some g => toString g | none => "1000")
  let e := pyDictSet e "MC_SSH_ENABLED" (if args.ssh then "true" else "false")
  apiKeys.foldl
    (fun acc k =>
      match pyDictGet host.osEnviron k with
      | some v => if pyDictHas acc k then acc else pyDictSet acc k v
      | none => acc)
    e

/-- Warning printed when a requested MCP name has no configuration. -/
def mcpWarnNotFound (n : String) : String :=
  "Warning: MCP server " ++ n ++ " not found, skipping"

/-- Warning printed when starting a requested MCP raises. -/
def mcpWarnStartFailed (n : String) : String :=
  "Warning: Failed to start MCP server " ++ n

/-- Accumulator of the per-MCP loop of `create_session` lines 326-426. -/
structure McpLoopState where
  env : Env
  names : List String
  containerNames : List String
  warnings : List String
deriving Repr

/-- One iteration of the MCP loop.  A missing configuration warns and skips.
A found configuration is appended to `mcp_names` before anything else.  For
docker and proxy types, `start_mcp` is attempted: on success the container
name is recorded and the indexed environment variables are injected; on a
raise a warning is recorded and the container name (not yet recorded at
the raise point) is erased from the container-name list, while the name
stays in `mcp_names`.  A remote configuration only injects environment
variables. -/
def processMcp (mcps : List MCPDict) (startRaises : String → Bool)
    (statusPorts : String → List Nat) (st : McpLoopState) (mcp_name : String) :
    McpLoopState :=
  match get_mcp mcps mcp_name with
  | none => { st with warnings := st.warnings ++ [mcpWarnNotFound mcp_name] }
  | some cfg =>
    let names := st.names ++ [mcp_name]
    if cfg.type == "docker" || cfg.type == "proxy" then
      if startRaises mcp_name then
        { st with
          names,
          containerNames := st.containerNames.erase (get_mcp_container_name mcp_name),
          warnings := st.warnings ++ [mcpWarnStartFailed mcp_name] }
      else
        let container_name := get_mcp_container_name mcp_name
        let containerNames := st.containerNames ++ [container_name]
        let idx := names.length - 1
        let pfx := "MCP_" ++ toString idx ++ "_"
        let e :=
          if cfg.type == "remote" then
            -- unreachable inside the docker/proxy branch, kept as in source
            let e := pyDictSet st.env (pfx ++ "URL") (cfg.url.getD "")
            if cfg.headers.isEmpty then e
            else pyDictSet e (pfx ++ "HEADERS") (jsonObj cfg.headers)
          else
            let port := (statusPorts mcp_name).headD 8080
            let e := pyDictSet st.env (pfx ++ "HOST") mcp_name
            let e := pyDictSet e (pfx ++ "PORT") (toString port)
            let e := pyDictSet e (pfx ++ "URL")
              ("http://" ++ mcp_name ++ ":" ++ toString port ++ "/sse")
            pyDictSet e (pfx ++ "CONTAINER_URL")
              ("http://" ++ container_name ++ ":" ++ toString port ++ "/sse")
        let e := pyDictSet e (pfx ++ "TYPE") cfg.type
        let e := pyDictSet e (pfx ++ "NAME") mcp_name
        { env := e, names, containerNames, warnings := st.warnings }
    else if cfg.type == "remote" then
      let idx := names.length - 1
      let pfx := "MCP_" ++ toString idx ++ "_"
      let e := pyDictSet st.env (pfx ++ "URL") (cfg.url.getD "")
      let e :=
        if cfg.headers.isEmpty then e
        else pyDictSet e (pfx ++ "HEADERS") (jsonObj cfg.headers)
      let e := pyDictSet e (pfx ++ "TYPE") "remote"
      let e := pyDictSet e (pfx ++ "NAME") mcp_name
      { st with env := e, names }
    else
      { st with names }

/-- Whole MCP loop over the requested names. -/
def processMcps (mcps : List MCPDict) (startRaises : String → Bool)
    (statusPorts : String → List Nat) (st : McpLoopState) (req : List String) :
    McpLoopState :=
  req.foldl (processMcp mcps startRaises statusPorts) st

/-- Aggregate MCP environment of lines 428-435, set only when at least one
MCP was attached. -/
def mcpAggregateEnv (e : Env) (names : List String) : Env :=
  if names.isEmpty then e
  else
    let e := pyDictSet e "MCP_COUNT" (toString names.length)
    let e := pyDictSet e "MCP_ENABLED" "true"
    pyDictSet e "MCP_NAMES" (jsonArr names)

/-- Network list of lines 438-457: the default network first, then the
user networks other than the default, in order, duplicates kept; the
final membership-guarded loop of the source never adds anything. -/
def networkListOf (default_network : String) (networks : Option (List String)) :
    List String :=
  match networks with
  | some ns => if ns.isEmpty then [default_network]
               else default_network :: ns.filter (fun n => n != default_network)
  | none => [default_network]

/-- Container specification passed to `containers.create` in lines 492-513. -/
structure ContainerRecord where
  image : String
  name : String
  hostname : String
  environment : Env
  volumes : List (String × String × String)
  labels : List (String × String)
  network : String
  command : List String
  exposedPorts : List Nat
deriving DecidableEq, Repr

/-- First post-start connect pass (lines 519-537): every network of the
network list after the first is attempted, get-or-create then connect with
the session name as alias; a `DockerException` is caught per network. -/
def connectPhase1 (connectOk : String → Bool) (network_list : List String)
    (alias0 : String) : List (String × String × Bool) :=
  (network_list.drop 1).map (fun n => (n, alias0, connectOk n))

/-- Connected networks the reload of line 540 reports: the creation-time
network plus every successfully connected network of the first pass. -/
def existingNetworksAfterReload (connectOk : String → Bool)
    (network_list : List String) : List String :=
  network_list.take 1 ++ (network_list.drop 1).filter connectOk

/-- Second connect pass (lines 543-562): the dedicated per-name network of
every attached MCP, with the session name as alias, failures caught per
network. -/
def connectPhase2 (connectOk : String → Bool) (mcp_names : List String)
    (alias0 : String) : List (String × String × Bool) :=
  mcp_names.map (fun m =>
    ("mc-mcp-" ++ m ++ "-network", alias0, connectOk ("mc-mcp-" ++ m ++ "-network")))

/-- Third connect pass (lines 565-593): the user networks again, skipping
any network the cached reload already lists as connected. -/
def connectPhase3 (connectOk : String → Bool) (networks : Option (List String))
    (existing : List String) (alias0 : String) : List (String × String × Bool) :=
  match networks with
  | some ns =>
    if ns.isEmpty then []
    else (ns.filter (fun n => !existing.contains n)).map (fun n => (n, alias0, connectOk n))
  | none => []

/-- Observable outcome of one `create_session` call: the returned value,
the session store after the call, every network-connect attempt after the
container start (network name, alias, success), the warnings surfaced, and
the container specification when creation was reached. -/
structure CreateOutcome where
  session : Option Session
  raised : Option String := none
  store : SessionStore
  connects : List (String × String × Bool)
  warnings : List String
  createdContainer : Option ContainerRecord
deriving Repr

/-- Embedding of `ContainerManager.create_session`, lines 140-637 of
container.py.  Directory-creation side effects on the host are not
observable in the model; every Docker call outcome comes from the oracle;
the single `except DockerException` handler becomes the early abort
returns. -/
def create_session (mgr : Managers) (host : HostEnv) (orc : CreateOracle)
    (store0 : SessionStore) (args : CreateArgs) : CreateOutcome :=
  match get_driver ⟨mgr.drivers, []⟩ args.driver_name with
  | none =>
    { session := none, store := store0, connects := [], warnings := [],
      createdContainer := none }
  | some driver =>
    let session_id := orc.session_id
    let session_name :=
      match args.session_name with
      | some s => if s == "" then "mc-" ++ session_id else s
      | none => "mc-" ++ session_id
    let env_vars := seedEnv args host
    if orc.pullRaises then
      { session := none, store := store0, connects := [], warnings := [],
        createdContainer := none }
    else
      let is_local_directory :=
        match args.project with
        | some p => p != "" && host.isDir p
        | none => false
      let is_git_repo :=
        match args.project with
        | some p => p != "" && !host.isDir p
        | none => false
      let local_dir :=
        match args.project with
        | some p => host.absPath p
        | none => ""
      let session_volumes : List (String × String × String) :=
        if is_local_directory && args.mount_local then [(local_dir, "/app", "rw")] else []
      let project :=
        if is_local_directory && args.mount_local then none else args.project
      let env_vars :=
        if is_git_repo && !(is_local_directory && args.mount_local) then
          pyDictSet env_vars "MC_PROJECT_URL" ((args.project).getD "")
        else env_vars
      let userVolumeStep :=
        fun (acc : List (String × String × String) × List String)
            (v : String × String × String) =>
          let vols := acc.1
          let vols :=
            if v.2.1 == "/app" && is_local_directory && args.mount_local then
              vols.filter (fun w => w.1 != local_dir)
            else vols
          let vols := pyDictSet vols v.1 v.2
          let warns :=
            if v.2.1 == "/app" && is_local_directory && args.mount_local then
              acc.2 ++ ["Warning: Volume mount to /app conflicts with local directory mount."]
            else acc.2
          (vols, warns)
      let volsWarns := args.volumes.foldl userVolumeStep (session_volumes, [])
      let session_volumes := volsWarns.1
      let warnings0 := volsWarns.2
      let project_config_path := _get_project_config_path host.home host.cwd project
      let session_volumes := session_volumes ++ [(project_config_path, "/mc-config", "rw")]
      let env_vars := pyDictSet env_vars "MC_CONFIG_DIR" "/mc-config"
      let env_vars :=
        pyDictSet env_vars "MC_DRIVER_CONFIG_DIR" ("/mc-config/" ++ args.driver_name)
      let persistent_links_data :=
        driver.persistent_configs.map (fun c => c.source ++ ":" ++ c.target)
      let env_vars :=
        if persistent_links_data.isEmpty then env_vars
        else
          pyDictSet env_vars "MC_PERSISTENT_LINKS"
            (String.intercalate ";" persistent_links_data)
      let mcps_to_process := (args.mcp).getD []
      let loop := processMcps mgr.mcps orc.mcpStartRaises orc.mcpStatusPorts
        { env := env_vars, names := [], containerNames := [], warnings := warnings0 }
        mcps_to_process
      let mcp_names := loop.names
      let env_vars := mcpAggregateEnv loop.env mcp_names
      let warnings1 := loop.warnings
      let network_list := networkListOf mgr.defaultNetwork args.networks
      let env_vars :=
        match args.run_command with
        | some rc => pyDictSet env_vars "MC_RUN_COMMAND" rc
        | none => env_vars
      let container_command := ["/bin/bash"]
      let env_vars := pyDictSet env_vars "MC_MODEL"
        (match args.model with
         | some m => if m == "" then mgr.userDefaultModel else m
         | none => mgr.userDefaultModel)
      let env_vars := pyDictSet env_vars "MC_PROVIDER"
        (match args.provider with
         | some p => if p == "" then mgr.userDefaultProvider else p
         | none => mgr.userDefaultProvider)
      if orc.createRaises then
        { session := none, store := store0, connects := [], warnings := warnings1,
          createdContainer := none }
      else
        let record : ContainerRecord :=
          { image := driver.image, name := session_name, hostname := session_name,
            environment := env_vars, volumes := session_volumes,
            labels := [("mc.session", "true"), ("mc.session.id", session_id),
                       ("mc.session.name", session_name), ("mc.driver", args.driver_name),
                       ("mc.project", project.getD ""),
                       ("mc.mcps", String.intercalate "," mcp_names)],
            network := network_list.headD "", command := container_command,
            exposedPorts := driver.ports }
        if orc.startRaises then
          { session := none, store := store0, connects := [], warnings := warnings1,
            createdContainer := some record }
        else
          let c1 := connectPhase1 orc.connectOk network_list session_name
          let existing := existingNetworksAfterReload orc.connectOk network_list
          let c2 := connectPhase2 orc.connectOk mcp_names session_name
          let c3 := connectPhase3 orc.connectOk args.networks existing session_name
          -- Session(... model=model ...): models.py requires model: str, so a
          -- call without a model raises ValidationError here, after the
          -- network connects and before the store write; the exception is
          -- not a DockerException and escapes create_session.
          match args.model with
          | none =>
            { session := none, raised := some validationErrorModel, store := store0,
              connects := c1 ++ c2 ++ c3, warnings := warnings1,
              createdContainer := some record }
          | some m =>
            let session : Session :=
              { id := session_id, name := session_name, driver := args.driver_name,
                status := .running, container_id := some orc.containerId,
                environment := env_vars, project, created_at := orc.createdAt,
                ports := orc.published, mcps := mcp_names, model := m }
            { session := some session,
              store := add_session store0 session_id session,
              connects := c1 ++ c2 ++ c3,
              warnings := warnings1,
              createdContainer := some record }

/-! ## Derived and specification-side definitions -/

/-- Requested MCP names that resolve to a stored configuration; this is the
attached-name list the MCP loop accumulates, start failures included. -/
def foundMcpNames (mcps : List MCPDict) (req : List String) : List String :=
  req.filter (fun n => (get_mcp mcps n).isSome)

/-- Warning one MCP loop iteration emits, when it emits one. -/
def mcpWarnOf (mcps : List MCPDict) (startRaises : String → Bool) (n : String) :
    Option String :=
  match get_mcp mcps n with
  | none => some (mcpWarnNotFound n)
  | some cfg =>
    if (cfg.type == "docker" || cfg.type == "proxy") && startRaises n then
      some (mcpWarnStartFailed n)
    else none

/-- Specification-side definition following the words of claim C5: the
smallest host port at least 5101 not already assigned to an existing
proxy-type MCP configuration.  Compared against the port the source
assigns. -/
def nextFreePortSpec (mcps : List MCPDict) : Nat :=
  let used := mcps.filterMap (fun m => if m.type == "proxy" then m.host_port else none)
  ((((List.range (used.length + 1)).map (fun i => 5101 + i)).find?
    (fun p => !used.contains p)).getD 5101)

/-- Specification-side definition following the words of claim C4: the
per-name networks of the attached MCPs first, then the user-specified
extra networks.  Compared against the connect order the source produces. -/
def claimedConnectOrder (mcp_names userNets : List String) : List String :=
  mcp_names.map (fun n => "mc-mcp-" ++ n ++ "-network") ++ userNets

/-- User networks the third connect pass retries: those the cached reload
does not list as connected. -/
def thirdPassNetworks (connectOk : String → Bool) (default_network : String)
    (networks : Option (List String)) : List String :=
  match networks with
  | some ns =>
    if ns.isEmpty then []
    else ns.filter (fun n =>
      !(existingNetworksAfterReload connectOk (networkListOf default_network networks)).contains n)
  | none => []

/-- Whether closing one session succeeds under the given runtime outcomes. -/
def closeOk (stopRemoveOk : String → Bool) (s : Session) : Bool :=
  match s.container_id with
  | some cid => stopRemoveOk cid
  | none => false

/-- Progress-callback event one session close produces. -/
def closeEvent (stopRemoveOk : String → Bool) (s : Session) : String × String :=
  (s.id, if closeOk stopRemoveOk s then "completed" else "failed")

/-! ## Concrete fixtures for witnesses and counterexamples -/

/-- User-directory manifest declaring a driver named `goose`, shadowing the
bundled one with a different definition. -/
def userGooseManifest : DriverManifest :=
  { name := some "goose", description := some "user shadow", version := some "9.9.9",
    maintainer := some "user@example.com", ports := [1234] }

/-- Driver the user manifest would load to. -/
def userGooseDriver : Driver :=
  { name := "goose", description := "user shadow", version := "9.9.9",
    maintainer := "user@example.com", image := "monadical/mc-goose:latest",
    ports := [1234] }

/-- Docker MCP configuration fixture `m1`. -/
def mcpM1 : MCPDict := { name := "m1", type := "docker", image := some "img1", command := some "c1" }

/-- Docker MCP configuration fixture `m2`. -/
def mcpM2 : MCPDict := { name := "m2", type := "docker", image := some "img2", command := some "c2" }

/-- Managers fixture for claim C2: two docker MCP configurations. -/
def mgrC2 : Managers := { drivers := DEFAULT_DRIVERS, mcps := [mcpM1, mcpM2] }

/-- Oracle fixture for claim C2: starting MCP `m1` raises. -/
def orcC2 : CreateOracle := { mcpStartRaises := fun n => n == "m1" }

/-- Arguments fixture for claim C2; a model is supplied so that the final
`Session` construction does not raise. -/
def argsC2 : CreateArgs :=
  { driver_name := "goose", mcp := some ["m1", "m2"], model := some "gpt-4o" }

/-- Store fixture for claim C3 with one unrelated pre-existing entry. -/
def storeC3 : SessionStore :=
  [("s0", { id := "s0", name := "mc-s0", driver := "goose", status := .running,
            model := "m0" })]

/-- Arguments fixture for claim C3. -/
def argsC3 : CreateArgs := { driver_name := "goose" }

/-- Managers fixture for claim C4: one docker MCP configuration. -/
def mgrC4 : Managers := { drivers := DEFAULT_DRIVERS, mcps := [mcpM2] }

/-- Arguments fixture for claim C4: one attached MCP and one user network;
a model is supplied so that the final `Session` construction does not
raise. -/
def argsC4 : CreateArgs :=
  { driver_name := "goose", mcp := some ["m2"], networks := some ["unet"],
    model := some "g1" }

/-- Proxy MCP configuration fixture at host port 5105. -/
def mcp50 : MCPDict :=
  { name := "p0", type := "proxy", base_image := some "b0", proxy_image := some "pr0",
    command := some "c0", host_port := some 5105 }

/-- Stored MCP list fixture for claim C5: one proxy at host port 5105,
leaving 5101 through 5104 free. -/
def mcps5 : List MCPDict := [mcp50]

/-- Remote MCP configuration fixture for claim C6. -/
def remoteCfg : MCPDict := { name := "r", type := "remote", url := some "http://e/sse" }

/-- Runtime fixture for claim C6: a stale stopped container bearing the
container name of the remote MCP. -/
def staleContainers : List (String × ContainerInfo) :=
  [("mc_mcp_r", { cid := "cr", status := "exited" })]

/-- Runtime fixture for claim C7: three session containers, all bearing an
`mc.model` label so that listing them does not raise. -/
def containersC7 : List RuntimeContainer := [
  { cid := "c1", status := "running",
    labels := [("mc.session", "true"), ("mc.session.id", "s1"), ("mc.model", "gm")] },
  { cid := "c2", status := "running",
    labels := [("mc.session", "true"), ("mc.session.id", "s2"), ("mc.model", "gm")] },
  { cid := "c3", status := "exited",
    labels := [("mc.session", "true"), ("mc.session.id", "s3"), ("mc.model", "gm")] }]

/-- Sessions `list_sessions` yields at `containersC7`. -/
def sessionsC7 : List Session := [
  { id := "s1", name := "mc-s1", driver := "unknown", status := .running,
    container_id := some "c1", model := "gm" },
  { id := "s2", name := "mc-s2", driver := "unknown", status := .running,
    container_id := some "c2", model := "gm" },
  { id := "s3", name := "mc-s3", driver := "unknown", status := .stopped,
    container_id := some "c3", model := "gm" }]

/-- Store fixture for claim C7. -/
def storeC7 : SessionStore :=
  [("s9", { id := "s9", name := "mc-s9", driver := "goose", status := .running,
            model := "m9" })]

/-- Runtime fixture for claim C8: one live session container with id `s1`,
created the way `create_session` labels containers — in particular with no
`mc.model` label, since `create_session` never writes one. -/
def containersC8 : List RuntimeContainer :=
  [{ cid := "c1", status := "running",
     labels := [("mc.session", "true"), ("mc.session.id", "s1")] }]

/-- Store fixture for claim C8. -/
def storeC8 : SessionStore :=
  [("s1", { id := "s1", name := "mc-s1", driver := "goose", status := .running,
            model := "m1" })]

/-- Stored MCP list fixture for claim C10. -/
def mcps10 : List MCPDict :=
  [{ name := "a", type := "docker", image := some "ia", command := some "ca" },
   { name := "b", type := "remote", url := some "http://b/sse" }]

/-! ## Supporting lemmas -/

theorem pyDictGet_nil (k : String) : pyDictGet ([] : List (String × α)) k = none := rfl

theorem pyDictGet_cons (p : String × α) (d : List (String × α)) (k : String) :
    pyDictGet (p :: d) k = if p.1 == k then some p.2 else pyDictGet d k := by
  by_cases h : p.1 == k <;> simp [pyDictGet, List.find?, h]

theorem pyDictGet_set_self (d : List (String × α)) (k : String) (v : α) :
    pyDictGet (pyDictSet d k v) k = some v := by
  induction d with
  | nil => simp [pyDictSet, pyDictGet_cons, pyDictGet_nil]
  | cons p rest ih =>
    by_cases h : p.1 == k
    · simp [pyDictSet, h, pyDictGet_cons]
    · simp [pyDictSet, h, pyDictGet_cons, ih]

theorem pyDictGet_set_ne (d : List (String × α)) (k k2 : String) (v : α)
    (h : k ≠ k2) : pyDictGet (pyDictSet d k2 v) k = pyDictGet d k := by
  induction d with
  | nil =>
    simp [pyDictSet, pyDictGet_cons, pyDictGet_nil]
    intro he
    exact absurd he.symm h
  | cons p rest ih =>
    by_cases hp : p.1 == k2
    · have hpk : (p.1 == k) = false := by
        have : p.1 = k2 := by simpa using hp
        simp [this]
        exact fun he => h he.symm
      simp [pyDictSet, hp, pyDictGet_cons, hpk]
      intro he
      exact absurd he.symm h
    · simp [pyDictSet, hp, pyDictGet_cons, ih]

theorem processMcp_names (mcps : List MCPDict) (sr : String → Bool)
    (sp : String → List Nat) (st : McpLoopState) (n : String) :
    (processMcp mcps sr sp st n).names =
      st.names ++ (if (get_mcp mcps n).isSome then [n] else []) := by
  unfold processMcp
  cases hm : get_mcp mcps n with
  | none => simp
  | some cfg => simp only [Option.isSome_some, if_true]; split_ifs <;> simp

theorem processMcps_names (mcps : List MCPDict) (sr : String → Bool)
    (sp : String → List Nat) :
    ∀ (req : List String) (st : McpLoopState),
      (processMcps mcps sr sp st req).names = st.names ++ foundMcpNames mcps req := by
  intro req
  induction req with
  | nil => intro st; simp [processMcps, foundMcpNames]
  | cons n rest ih =>
    intro st
    have h1 : processMcps mcps sr sp st (n :: rest) =
        processMcps mcps sr sp (processMcp mcps sr sp st n) rest := rfl
    rw [h1, ih, processMcp_names]
    by_cases hm : (get_mcp mcps n).isSome <;>
      simp [foundMcpNames, hm, List.filter_cons]

theorem processMcp_warnings (mcps : List MCPDict) (sr : String → Bool)
    (sp : String → List Nat) (st : McpLoopState) (n : String) :
    (processMcp mcps sr sp st n).warnings =
      st.warnings ++ (mcpWarnOf mcps sr n).toList := by
  unfold processMcp mcpWarnOf
  cases hm : get_mcp mcps n with
  | none => simp
  | some cfg => split_ifs <;> simp_all <;> split_ifs <;> simp_all

theorem processMcps_warnings (mcps : List MCPDict) (sr : String → Bool)
    (sp : String → List Nat) :
    ∀ (req : List String) (st : McpLoopState),
      (processMcps mcps sr sp st req).warnings =
        st.warnings ++ req.filterMap (mcpWarnOf mcps sr) := by
  intro req
  induction req with
  | nil => intro st; simp [processMcps]
  | cons n rest ih =>
    intro st
    have h1 : processMcps mcps sr sp st (n :: rest) =
        processMcps mcps sr sp (processMcp mcps sr sp st n) rest := rfl
    rw [h1, ih, processMcp_warnings, List.filterMap_cons]
    cases hw : mcpWarnOf mcps sr n <;> simp

theorem proxyPortStep_ge (h : Nat) (m : MCPDict) : h ≤ proxyPortStep h m := by
  unfold proxyPortStep
  cases hp : m.host_port with
  | none => dsimp only; split_ifs <;> exact le_rfl
  | some p =>
    dsimp only
    split_ifs with h1 h2
    · simp only [Bool.and_eq_true, decide_eq_true_eq] at h2
      omega
    · exact le_rfl
    · exact le_rfl

theorem foldl_proxyPortStep_ge :
    ∀ (l : List MCPDict) (h : Nat), h ≤ l.foldl proxyPortStep h := by
  intro l
  induction l with
  | nil => intro h; simp
  | cons m rest ih =>
    intro h
    calc h ≤ proxyPortStep h m := proxyPortStep_ge h m
    _ ≤ rest.foldl proxyPortStep (proxyPortStep h m) := ih _

theorem mem_le_foldl_proxyPortStep :
    ∀ (l : List MCPDict) (h : Nat) (m : MCPDict) (p : Nat), m ∈ l →
      m.type = "proxy" → m.host_port = some p → p ≠ 0 →
      p ≤ l.foldl proxyPortStep h := by
  intro l
  induction l with
  | nil => intro h m p hm; cases hm
  | cons x rest ih =>
    intro h m p hm ht hp hp0
    rcases List.mem_cons.mp hm with rfl | hmem
    · have hstep : p ≤ proxyPortStep h m := by
        unfold proxyPortStep
        rw [ht, hp]
        simp only [beq_self_eq_true, if_true]
        split_ifs with hc
        · omega
        · simp only [Bool.and_eq_true, decide_eq_true_eq, bne_iff_ne, not_and_or] at hc
          rcases hc with hc | hc
          · exact absurd hp0 (by simpa using hc)
          · omega
      calc p ≤ proxyPortStep h m := hstep
      _ ≤ rest.foldl proxyPortStep (proxyPortStep h m) := foldl_proxyPortStep_ge _ _
    · exact ih _ m p hmem ht hp hp0

set_option linter.unnecessarySeqFocus false in
theorem closeAll_foldl (f : String → Bool) :
    ∀ (sessions : List Session) (acc : Nat × List (String × String) × SessionStore),
      (∀ s ∈ sessions, s.container_id.isSome) →
      (sessions.foldl (closeAllStep f) acc).1 =
          acc.1 + (sessions.filter (closeOk f)).length ∧
        (sessions.foldl (closeAllStep f) acc).2.1 =
          acc.2.1 ++ sessions.map (closeEvent f) := by
  intro sessions
  induction sessions with
  | nil => intro acc _; simp
  | cons s rest ih =>
    intro acc hall
    have hs : s.container_id.isSome := hall s (List.mem_cons_self s rest)
    cases hcid : s.container_id with
    | none => rw [hcid] at hs; cases hs
    | some cid =>
      have hrest := fun t ht => hall t (List.mem_cons_of_mem s ht)
      have hstep : closeAllStep f acc s =
          if f cid then
            (acc.1 + 1, acc.2.1 ++ [(s.id, "completed")], remove_session acc.2.2 s.id)
          else (acc.1, acc.2.1 ++ [(s.id, "failed")], acc.2.2) := by
        unfold closeAllStep
        rw [hcid]
      have hok : closeOk f s = f cid := by unfold closeOk; rw [hcid]
      have hev : closeEvent f s = (s.id, if f cid then "completed" else "failed") := by
        unfold closeEvent
        rw [hok]
      have h1 : (s :: rest).foldl (closeAllStep f) acc =
          rest.foldl (closeAllStep f) (closeAllStep f acc s) := rfl
      rw [h1]
      obtain ⟨ihc, ihe⟩ := ih (closeAllStep f acc s) hrest
      constructor
      · rw [ihc, hstep, List.filter_cons, hok]
        by_cases hf : f cid <;> simp [hf] <;> try omega
      · rw [ihe, hstep, List.map_cons, hev]
        by_cases hf : f cid <;> simp [hf]

theorem sessionOfContainer_ok_container_id (c : RuntimeContainer) (s : Session)
    (h : sessionOfContainer c = some (.ok s)) : s.container_id.isSome := by
  unfold sessionOfContainer at h
  split at h
  · split at h
    · cases h
    · split at h
      · cases h
      · split at h
        · cases h
        · cases h
          rfl
  · cases h

theorem list_sessions_ok_container_id :
    ∀ (cs : List RuntimeContainer) (sessions : List Session),
      list_sessions cs = .ok sessions → ∀ s ∈ sessions, s.container_id.isSome := by
  intro cs
  induction cs with
  | nil =>
    intro sessions h
    cases h
    intro s hs
    cases hs
  | cons c rest ih =>
    intro sessions h
    unfold list_sessions at h
    cases hsc : sessionOfContainer c with
    | none =>
      rw [hsc] at h
      exact ih sessions h
    | some r =>
      cases r with
      | raised e => rw [hsc] at h; cases h
      | ok s0 =>
        rw [hsc] at h
        cases hrest : list_sessions rest with
        | raised e => rw [hrest] at h; cases h
        | ok l =>
          rw [hrest] at h
          cases h
          intro s hs
          rcases List.mem_cons.mp hs with rfl | hmem
          · exact sessionOfContainer_ok_container_id c s hsc
          · exact ih l hrest s hmem

/-- Claim C3: a `DockerException` from the container runtime during
container creation or start aborts `create_session`: the result carries no
session, no entry is added to the Session Store, and no exception
propagates to the caller (`raised = none`: the abort happens inside the
`except DockerException` handler, before the fallible `Session`
construction is reached). -/
theorem c3_create_runtime_exception (mgr : Managers) (host : HostEnv)
    (orc : CreateOracle) (store0 : SessionStore) (args : CreateArgs)
    (h : orc.createRaises = true ∨ orc.startRaises = true) :
    (create_session mgr host orc store0 args).session = none ∧
      (create_session mgr host orc store0 args).store = store0 ∧
      (create_session mgr host orc store0 args).raised = none := by
  unfold create_session
  cases hd : get_driver ⟨mgr.drivers, []⟩ args.driver_name with
  | none => exact ⟨rfl, rfl, rfl⟩
  | some driver =>
    by_cases hp : orc.pullRaises
    · simp [hp]
    · rcases h with h | h
      · simp [hp, h]
      · by_cases hc : orc.createRaises <;> simp [hp, hc, h]

/-- Lookup of the aggregate MCP variables after `mcpAggregateEnv`. -/
theorem mcpAggregateEnv_get (e : Env) (names : List String) (h : names ≠ []) :
    pyDictGet (mcpAggregateEnv e names) "MCP_NAMES" = some (jsonArr names) ∧
      pyDictGet (mcpAggregateEnv e names) "MCP_COUNT" = some (toString names.length) := by
  unfold mcpAggregateEnv
  have hne : names.isEmpty = false := by
    cases names with
    | nil => exact absurd rfl h
    | cons a l => rfl
  rw [hne]
  simp only [Bool.false_eq_true, if_false]
  constructor
  · exact pyDictGet_set_self _ _ _
  · rw [pyDictGet_set_ne _ _ _ _ (by decide), pyDictGet_set_ne _ _ _ _ (by decide)]
    exact pyDictGet_set_self _ _ _

/-- Claim C2 (amended): when starting one requested docker/proxy MCP
raises, session creation continues with the remaining MCPs and a warning
is surfaced, but the failed name is NOT dropped from the attached list: it
stays in the session `mcps` field, in the `mc.mcps` label, and in the
`MCP_COUNT` / `MCP_NAMES` environment variables (only its per-index
endpoint variables are missing, and only the internal container-name list
omits it).  The session record exists provided the caller supplied a
model: with `model=None` the final `Session` construction raises
`ValidationError` instead (models.py requires `model: str`). -/
theorem c2_failed_mcp_not_dropped (mgr : Managers) (host : HostEnv)
    (orc : CreateOracle) (store0 : SessionStore) (args : CreateArgs)
    (driver : Driver) (bad : String) (cfg : MCPDict) (m : String)
    (hdrv : get_driver ⟨mgr.drivers, []⟩ args.driver_name = some driver)
    (hpull : orc.pullRaises = false) (hcreate : orc.createRaises = false)
    (hstart : orc.startRaises = false)
    (hmodel : args.model = some m)
    (hreq : bad ∈ (args.mcp).getD [])
    (hfound : get_mcp mgr.mcps bad = some cfg)
    (htype : cfg.type = "docker" ∨ cfg.type = "proxy")
    (hfail : orc.mcpStartRaises bad = true) :
    ∃ s, (create_session mgr host orc store0 args).session = some s ∧
      s.mcps = foundMcpNames mgr.mcps ((args.mcp).getD []) ∧
      bad ∈ s.mcps ∧
      mcpWarnStartFailed bad ∈ (create_session mgr host orc store0 args).warnings ∧
      pyDictGet s.environment "MCP_NAMES" = some (jsonArr s.mcps) ∧
      pyDictGet s.environment "MCP_COUNT" = some (toString s.mcps.length) := by
  unfold create_session
  simp only [hdrv, hpull, hcreate, hstart, hmodel, Bool.false_eq_true, if_false]
  refine ⟨_, rfl, ?_, ?_, ?_, ?_, ?_⟩
  · simp only [processMcps_names, List.nil_append]
  · simp only [processMcps_names, List.nil_append, foundMcpNames]
    exact List.mem_filter.mpr ⟨hreq, by simp [hfound]⟩
  · simp only [processMcps_warnings]
    apply List.mem_append_right
    refine List.mem_filterMap.mpr ⟨bad, hreq, ?_⟩
    unfold mcpWarnOf
    rw [hfound]
    rcases htype with ht | ht <;> simp [ht, hfail]
  · have hbad : bad ∈ foundMcpNames mgr.mcps ((args.mcp).getD []) :=
      List.mem_filter.mpr ⟨hreq, by simp [hfound]⟩
    have hne : foundMcpNames mgr.mcps ((args.mcp).getD []) ≠ [] := by
      intro h0
      rw [h0] at hbad
      cases hbad
    simp only [processMcps_names, List.nil_append]
    rw [pyDictGet_set_ne _ _ _ _ (by decide), pyDictGet_set_ne _ _ _ _ (by decide)]
    cases hrc : args.run_command with
    | none => exact (mcpAggregateEnv_get _ _ hne).1
    | some rc =>
      rw [pyDictGet_set_ne _ _ _ _ (by decide)]
      exact (mcpAggregateEnv_get _ _ hne).1
  · have hbad : bad ∈ foundMcpNames mgr.mcps ((args.mcp).getD []) :=
      List.mem_filter.mpr ⟨hreq, by simp [hfound]⟩
    have hne : foundMcpNames mgr.mcps ((args.mcp).getD []) ≠ [] := by
      intro h0
      rw [h0] at hbad
      cases hbad
    simp only [processMcps_names, List.nil_append]
    rw [pyDictGet_set_ne _ _ _ _ (by decide), pyDictGet_set_ne _ _ _ _ (by decide)]
    cases hrc : args.run_command with
    | none => exact (mcpAggregateEnv_get _ _ hne).2
    | some rc =>
      rw [pyDictGet_set_ne _ _ _ _ (by decide)]
      exact (mcpAggregateEnv_get _ _ hne).2

theorem connectPhase1_map_fst (ok : String → Bool) (nl : List String) (a : String) :
    (connectPhase1 ok nl a).map (fun e => e.1) = nl.drop 1 := by
  unfold connectPhase1
  rw [List.map_map]
  exact List.map_id _

theorem connectPhase2_map_fst (ok : String → Bool) (ms : List String) (a : String) :
    (connectPhase2 ok ms a).map (fun e => e.1) =
      ms.map (fun n => "mc-mcp-" ++ n ++ "-network") := by
  unfold connectPhase2
  rw [List.map_map]
  rfl

theorem connectPhase3_map_fst (ok : String → Bool) (d : String)
    (nets : Option (List String)) (a : String) :
    (connectPhase3 ok nets (existingNetworksAfterReload ok (networkListOf d nets)) a).map
        (fun e => e.1) = thirdPassNetworks ok d nets := by
  unfold connectPhase3 thirdPassNetworks
  cases nets with
  | none => rfl
  | some ns =>
    dsimp only
    split_ifs
    · rfl
    · rw [List.map_map]
      exact List.map_id _

theorem connectPhase1_alias (ok : String → Bool) (nl : List String) (a : String) :
    ∀ e ∈ connectPhase1 ok nl a, e.2.1 = a := by
  intro e he
  rw [connectPhase1, List.mem_map] at he
  obtain ⟨n, _, rfl⟩ := he
  rfl

theorem connectPhase2_alias (ok : String → Bool) (ms : List String) (a : String) :
    ∀ e ∈ connectPhase2 ok ms a, e.2.1 = a := by
  intro e he
  rw [connectPhase2, List.mem_map] at he
  obtain ⟨n, _, rfl⟩ := he
  rfl

theorem connectPhase3_alias (ok : String → Bool) (nets : Option (List String))
    (ex : List String) (a : String) :
    ∀ e ∈ connectPhase3 ok nets ex a, e.2.1 = a := by
  intro e he
  unfold connectPhase3 at he
  cases nets with
  | none => cases he
  | some ns =>
    dsimp only at he
    split_ifs at he
    · cases he
    · rw [List.mem_map] at he
      obtain ⟨n, _, rfl⟩ := he
      rfl

/-- Claim C4 (amended): after starting the container, `create_session`
connects the additional networks in this order: first every user-specified
extra network (as the tail of the initial network list), then every
attached MCP's dedicated per-name network, then a second pass over the
user networks restricted to those not already connected; every attempt
uses the session name as the network alias, and per-network failures do
not prevent the session from being created.  The session record requires
a supplied model: with `model=None` the connects still all happen, but the
final `Session` construction raises `ValidationError` (models.py requires
`model: str`). -/
theorem c4_connect_order (mgr : Managers) (host : HostEnv)
    (orc : CreateOracle) (store0 : SessionStore) (args : CreateArgs)
    (driver : Driver) (m : String)
    (hdrv : get_driver ⟨mgr.drivers, []⟩ args.driver_name = some driver)
    (hpull : orc.pullRaises = false) (hcreate : orc.createRaises = false)
    (hstart : orc.startRaises = false)
    (hmodel : args.model = some m) :
    ∃ s, (create_session mgr host orc store0 args).session = some s ∧
      ((create_session mgr host orc store0 args).connects.map (fun e => e.1)) =
        ((networkListOf mgr.defaultNetwork args.networks).drop 1) ++
          (s.mcps.map (fun n => "mc-mcp-" ++ n ++ "-network")) ++
          thirdPassNetworks orc.connectOk mgr.defaultNetwork args.networks ∧
      (∀ e ∈ (create_session mgr host orc store0 args).connects, e.2.1 = s.name) := by
  unfold create_session
  simp only [hdrv, hpull, hcreate, hstart, hmodel, Bool.false_eq_true, if_false]
  refine ⟨_, rfl, ?_, ?_⟩
  · rw [List.map_append, List.map_append, connectPhase1_map_fst, connectPhase2_map_fst,
      connectPhase3_map_fst]
  · intro e he
    rw [List.mem_append] at he
    rcases he with he | he
    · rw [List.mem_append] at he
      rcases he with he | he
      · exact connectPhase1_alias _ _ _ e he
      · exact connectPhase2_alias _ _ _ e he
    · exact connectPhase3_alias _ _ _ _ e he

/-- Claim C7 (amended): when listing the live sessions succeeds (every
session container bears an `mc.model` label — without one, `Session`
validation raises inside `list_sessions` and the `ValidationError` escapes
`close_all_sessions`) and at least one live session exists,
`close_all_sessions` uses a worker pool of size `min 10 n`, invokes the
progress callback exactly once per session with `completed` or `failed`,
and returns the pair (number closed, whether at least one closed); one
failed close does not prevent the others from being processed.  With zero
live sessions it returns `(0, True)` before any pool is built. -/
theorem c7_close_all_fanout (containers : List RuntimeContainer)
    (stopRemoveOk : String → Bool) (store : SessionStore) (sessions : List Session)
    (hlist : list_sessions containers = .ok sessions)
    (h : sessions ≠ []) :
    ∃ o, close_all_sessions containers stopRemoveOk store = PyResult.ok o ∧
      o.poolSize = some (min 10 sessions.length) ∧
      o.callbackEvents = sessions.map (closeEvent stopRemoveOk) ∧
      o.closedCount = (sessions.filter (closeOk stopRemoveOk)).length ∧
      o.success = decide (0 < o.closedCount) := by
  have hne : sessions.isEmpty = false := by
    cases hl : sessions with
    | nil => exact absurd hl h
    | cons a l => rfl
  obtain ⟨hc, he⟩ := closeAll_foldl stopRemoveOk sessions
    (0, [], store) (list_sessions_ok_container_id containers sessions hlist)
  unfold close_all_sessions
  rw [hlist]
  dsimp only
  rw [hne]
  simp only [Bool.false_eq_true, if_false]
  refine ⟨_, rfl, ?_, ?_, ?_, ?_⟩ <;> simp [hc, he]

/-- Claim C1: for every driver name defined both in the bundled built-in
driver set and in a user-supplied driver manifest, `get_driver` and
`list_drivers` return the bundled definition, not the user-supplied one.
The registry built by `_create_default_config` never reads the user driver
directory, so a user manifest cannot shadow a bundled driver. -/
theorem c1_builtin_wins_on_collision
    (builtinDirs : List (Option DriverManifest))
    (userDirs : List (String × Option DriverManifest))
    (name : String) (d_b d_u : Driver)
    (hb : pyDictGet (createDefaultConfigDrivers builtinDirs) name = some d_b)
    (_hu : ∃ p ∈ userDirs, load_driver_from_dir p.2 = some d_u ∧ d_u.name = name)
    (hne : d_u ≠ d_b) :
    get_driver (configManagerInit builtinDirs userDirs) name = some d_b ∧
      pyDictGet (list_drivers (configManagerInit builtinDirs userDirs)) name = some d_b ∧
      get_driver (configManagerInit builtinDirs userDirs) name ≠ some d_u := by
  refine ⟨hb, hb, ?_⟩
  have heq : get_driver (configManagerInit builtinDirs userDirs) name =
      pyDictGet (createDefaultConfigDrivers builtinDirs) name := rfl
  rw [heq, hb]
  intro hcontra
  exact hne (Option.some_injective _ hcontra).symm

/-- Witness for C1: a user manifest shadowing `goose` with a different
definition is ignored; both lookups return the bundled `goose` driver. -/
theorem c1_witness :
    get_driver (configManagerInit [] [("goose", some userGooseManifest)]) "goose" =
        some gooseDriver ∧
      pyDictGet (list_drivers (configManagerInit [] [("goose", some userGooseManifest)]))
          "goose" = some gooseDriver ∧
      get_driver (configManagerInit [] [("goose", some userGooseManifest)]) "goose" ≠
        some userGooseDriver :=
  c1_builtin_wins_on_collision [] [("goose", some userGooseManifest)] "goose"
    gooseDriver userGooseDriver (by decide)
    ⟨("goose", some userGooseManifest), by decide, by decide, by decide⟩ (by decide)

/-- Counterexample to C5 as stated: with one existing proxy at host port
5105, `add_proxy_mcp` with no host port assigns 5106, while the next free
port at least 5101 is 5101 (ports 5101 through 5104 are free). -/
theorem c5_counterexample :
    (add_proxy_mcp mcps5 "p1" "b" "pr" "cmd" none [] none).1.host_port = some 5106 ∧
      nextFreePortSpec mcps5 = 5101 ∧ (5106 : Nat) ≠ 5101 := by decide

/-- Claim C5 (amended): `add_proxy_mcp` with no host port assigns one
more than the running maximum (floored at 5100) of the host ports of
existing proxy-type MCP configurations; the assigned port is at least 5101
and collides with no existing proxy host port, but it is not in general
the smallest free port. -/
theorem c5_auto_port_assignment (mcps : List MCPDict)
    (name base_image proxy_image command : String) (sse_port : Option Nat)
    (env : List (String × String)) :
    (add_proxy_mcp mcps name base_image proxy_image command sse_port env none).1.host_port =
        some (autoProxyHostPort mcps) ∧
      5101 ≤ autoProxyHostPort mcps ∧
      ∀ m ∈ mcps, m.type = "proxy" → m.host_port ≠ some (autoProxyHostPort mcps) := by
  refine ⟨rfl, ?_, ?_⟩
  · unfold autoProxyHostPort
    have := foldl_proxyPortStep_ge mcps 5100
    omega
  · intro m hm ht hc
    have hne0 : autoProxyHostPort mcps ≠ 0 := by unfold autoProxyHostPort; omega
    have h1 := mem_le_foldl_proxyPortStep mcps 5100 m (autoProxyHostPort mcps) hm ht hc hne0
    unfold autoProxyHostPort at h1
    omega

/-- Witness for C5 (amended) at the one-proxy fixture. -/
theorem c5_witness :
    (add_proxy_mcp mcps5 "q" "b" "pr" "c" none [] none).1.host_port =
        some (autoProxyHostPort mcps5) ∧
      5101 ≤ autoProxyHostPort mcps5 ∧
      mcp50.host_port ≠ some (autoProxyHostPort mcps5) := by
  have h := c5_auto_port_assignment mcps5 "q" "b" "pr" "c" none []
  exact ⟨h.1, h.2.1, h.2.2 mcp50 (by decide) (by decide)⟩

/-- Counterexample to C6 as stated: a stale stopped container bearing the
remote MCP's container name short-circuits `start_mcp` before the type
dispatch: the container is started and a running status is returned
instead of the not-applicable sentinel. -/
theorem c6_counterexample :
    start_mcp [remoteCfg] staleContainers "new" "r" =
        (StartMcpReturn.ok (StartMcpRes.running "cr" "r"),
          { started := ["mc_mcp_r"], removed := [], created := [] }) ∧
      (start_mcp [remoteCfg] staleContainers "new" "r").1 ≠
        StartMcpReturn.ok (StartMcpRes.notApplicable "r") := by decide

/-- Claim C6 (amended): for a configured MCP of type remote, when no
container bearing its container name exists in the runtime, `start_mcp`
creates and starts nothing and returns the not-applicable status; a
pre-existing container of that name is instead reused and started. -/
theorem c6_remote_without_container (mcps : List MCPDict)
    (containers : List (String × ContainerInfo)) (newId name : String) (cfg : MCPDict)
    (hc : get_mcp mcps name = some cfg) (ht : cfg.type = "remote")
    (hnone : pyDictGet containers (get_mcp_container_name name) = none) :
    start_mcp mcps containers newId name =
      (StartMcpReturn.ok (StartMcpRes.notApplicable name), {}) := by
  unfold start_mcp
  simp only [hc, hnone]
  unfold startMcpCreateBranch
  rw [ht]
  simp

/-- Witness for C6 (amended): remote MCP, no stale container. -/
theorem c6_witness :
    start_mcp [remoteCfg] [] "new" "r" =
      (StartMcpReturn.ok (StartMcpRes.notApplicable "r"), {}) :=
  c6_remote_without_container [remoteCfg] [] "new" "r" remoteCfg (by decide) (by decide) rfl

/-- Counterexample to C7 as stated: with zero live sessions,
`close_all_sessions` returns the pair `(0, True)` without building a
worker pool, although zero sessions were closed, so the second component
is not `whether at least one session was successfully closed` (that would
be `decide (0 < 0) = false`). -/
theorem c7_counterexample :
    close_all_sessions [] (fun _ => false) storeC7 =
        PyResult.ok { closedCount := 0, success := true, callbackEvents := [],
                      poolSize := none, store := storeC7 } ∧
      decide ((0 : Nat) < 0) ≠ true := by decide

/-- Witness for C7 (amended): three live sessions (all with `mc.model`
labels so listing succeeds), one failing close; pool size 3 and two
successful closes. -/
theorem c7_witness :
    ∃ o, close_all_sessions containersC7 (fun c => c != "c2") storeC7 = PyResult.ok o ∧
      o.poolSize = some 3 ∧ o.closedCount = 2 := by
  obtain ⟨o, ho, h1, h2, h3, h4⟩ :=
    c7_close_all_fanout containersC7 (fun c => c != "c2") storeC7 sessionsC7
      (by decide) (by decide)
  exact ⟨o, ho, h1.trans (by decide), h3.trans (by decide)⟩

/-- Claim C8 (code bug): the claim — `close_session` on a missing id
returns `false`, not an error, with the store unchanged — matches the spec
(§4.4, §7, §8) and the repo's own tests (which build `Session` without a
model), but the code raises instead: models.py declares the required field
`model: str` while `create_session` writes no `mc.model` label, so for any
runtime holding a tool-created session container, `list_sessions` raises
`ValidationError` at `Session(model=None)` and the error escapes the
`except DockerException` handler of `close_session` before the requested
id is compared with anything. -/
theorem c8_validation_error_escapes :
    close_session containersC8 (fun _ => true) storeC8 "zz" =
        PyResult.raised validationErrorModel ∧
      close_session containersC8 (fun _ => true) storeC8 "zz" ≠
        PyResult.ok (false, storeC8) := by decide

/-- Claim C9: `_get_project_config_path` is deterministic and idempotent:
for every nonempty project identifier the path is
`<home>/.mc/projects/<md5 hex digest of the identifier>/config`,
independent of the working directory; with no identifier the working
directory path itself is the identifier. -/
theorem c9_project_config_path_law :
    (∀ home cwd p, p ≠ "" →
      _get_project_config_path home cwd (some p) =
        home ++ "/.mc/projects/" ++ md5Hex p ++ "/config") ∧
      (∀ home cwd,
        _get_project_config_path home cwd none =
          home ++ "/.mc/projects/" ++ md5Hex cwd ++ "/config") ∧
      (∀ home cwd1 cwd2 p, p ≠ "" →
        _get_project_config_path home cwd1 (some p) =
          _get_project_config_path home cwd2 (some p)) := by
  refine ⟨?_, ?_, ?_⟩
  · intro home cwd p hp
    unfold _get_project_config_path
    dsimp only
    have hb : (p == "") = false := by simpa using hp
    rw [hb]
    simp
  · intro home cwd
    rfl
  · intro home cwd1 cwd2 p hp
    unfold _get_project_config_path
    dsimp only
    have hb : (p == "") = false := by simpa using hp
    rw [hb]
    simp

set_option maxRecDepth 40000 in
/-- Witness for C9: the path for identifier `abc` carries the genuine
MD5 digest of `abc`. -/
theorem c9_witness :
    _get_project_config_path "/root" "/w" (some "abc") =
      "/root/.mc/projects/900150983cd24fb0d6963f7d28e17f72/config" := by
  have h := c9_project_config_path_law.1 "/root" "/w" "abc" (by decide)
  rw [h]
  decide

/-- Claim C10: for every name with no entry in the stored MCP list,
`remove_mcp` returns `false`, does not rewrite the configuration, and does
not attempt to stop any container. -/
theorem c10_remove_missing_name (mcps : List MCPDict) (name : String)
    (h : ∀ m ∈ mcps, m.name ≠ name) :
    remove_mcp mcps name = (false, mcps, false) := by
  unfold remove_mcp
  have hf : mcps.filter (fun m => m.name != name) = mcps := by
    apply List.filter_eq_self.mpr
    intro m hm
    simpa using h m hm
  rw [hf]
  simp

/-- Witness for C10 at a concrete two-entry MCP list. -/
theorem c10_witness :
    remove_mcp mcps10 "zz" = (false, mcps10, false) :=
  c10_remove_missing_name mcps10 "zz" (by decide)

set_option maxRecDepth 40000 in
/-- Counterexample to C2 as stated: with two configured docker MCPs where
starting `m1` raises (and a model supplied, so the `Session` construction
succeeds), the resulting session still lists `m1` in its `mcps` field, in
the `mc.mcps` label, and in the `MCP_COUNT` / `MCP_NAMES` environment
variables.  The failed name is not dropped. -/
theorem c2_counterexample :
    ((create_session mgrC2 {} orcC2 [] argsC2).session.map Session.mcps) = some ["m1", "m2"] ∧
      orcC2.mcpStartRaises "m1" = true ∧
      mcpWarnStartFailed "m1" ∈ (create_session mgrC2 {} orcC2 [] argsC2).warnings ∧
      ((create_session mgrC2 {} orcC2 [] argsC2).createdContainer.map
        (fun r => pyDictGet r.labels "mc.mcps")) = some (some "m1,m2") ∧
      ((create_session mgrC2 {} orcC2 [] argsC2).session.map
        (fun s => pyDictGet s.environment "MCP_COUNT")) = some (some "2") ∧
      ((create_session mgrC2 {} orcC2 [] argsC2).session.map
        (fun s => pyDictGet s.environment "MCP_NAMES")) = some (some "[\"m1\", \"m2\"]") := by
  decide

/-- Witness for C2 (amended) at the concrete two-MCP fixture where
starting `m1` raises. -/
theorem c2_witness :
    ∃ s, (create_session mgrC2 {} orcC2 [] argsC2).session = some s ∧
      s.mcps = foundMcpNames mgrC2.mcps ((argsC2.mcp).getD []) ∧
      "m1" ∈ s.mcps ∧
      mcpWarnStartFailed "m1" ∈ (create_session mgrC2 {} orcC2 [] argsC2).warnings ∧
      pyDictGet s.environment "MCP_NAMES" = some (jsonArr s.mcps) ∧
      pyDictGet s.environment "MCP_COUNT" = some (toString s.mcps.length) :=
  c2_failed_mcp_not_dropped mgrC2 {} orcC2 [] argsC2 gooseDriver "m1" mcpM1 "gpt-4o"
    (by decide) rfl rfl rfl rfl (by decide) (by decide) (Or.inl rfl) rfl

/-- Witness for C3: a creation-time runtime exception yields no session
and leaves a nonempty store untouched. -/
theorem c3_witness :
    (create_session { drivers := DEFAULT_DRIVERS } {} { createRaises := true } storeC3
        argsC3).session = none ∧
      (create_session { drivers := DEFAULT_DRIVERS } {} { createRaises := true } storeC3
        argsC3).store = storeC3 ∧
      (create_session { drivers := DEFAULT_DRIVERS } {} { createRaises := true } storeC3
        argsC3).raised = none :=
  c3_create_runtime_exception { drivers := DEFAULT_DRIVERS } {} { createRaises := true }
    storeC3 argsC3 (Or.inl rfl)

set_option maxRecDepth 40000 in
/-- Counterexample to C4 as stated: with one attached MCP `m2` and one
user network `unet`, the post-start connect order is the user network
first and the dedicated MCP network second, the reverse of the order the
claim states (`claimedConnectOrder`). -/
theorem c4_counterexample :
    ((create_session mgrC4 {} {} [] argsC4).connects.map (fun e => e.1)) =
        ["unet", "mc-mcp-m2-network"] ∧
      claimedConnectOrder ["m2"] ["unet"] = ["mc-mcp-m2-network", "unet"] ∧
      ((create_session mgrC4 {} {} [] argsC4).connects.map (fun e => e.1)) ≠
        claimedConnectOrder ["m2"] ["unet"] := by
  decide

/-- Witness for C4 (amended) at the concrete one-MCP one-network
fixture. -/
theorem c4_witness :
    ∃ s, (create_session mgrC4 {} {} [] argsC4).session = some s ∧
      ((create_session mgrC4 {} {} [] argsC4).connects.map (fun e => e.1)) =
        ((networkListOf mgrC4.defaultNetwork argsC4.networks).drop 1) ++
          (s.mcps.map (fun n => "mc-mcp-" ++ n ++ "-network")) ++
          thirdPassNetworks ({} : CreateOracle).connectOk mgrC4.defaultNetwork argsC4.networks ∧
      (∀ e ∈ (create_session mgrC4 {} {} [] argsC4).connects, e.2.1 = s.name) :=
  c4_connect_order mgrC4 {} {} [] argsC4 gooseDriver "g1" (by decide) rfl rfl rfl rfl

end MC
